import Mathlib

/-!
Verification of the data-acquisition and normalization layer of the
`dashboard_indicadores` repository (`app/pages/dashboard.py`).

The embedding models the page's data layer:

* `Date`, `Column`, `DataFrame` — a shallow model of the pandas tables the
  page manipulates (a date index plus named value columns; a value may be
  missing, mirroring NaN cells).
* `indicadores` — the registry dictionary of the six indicators.
* `fetch_yfinance_data` — the Yahoo-Finance adapter.  The network call
  `yf.download` is an external effect, so the adapter takes the provider
  outcome as an explicit `Except` argument: `Except.error e` models a raised
  exception (timeout, transport error), `Except.ok data` a returned table.
* `sgs_get` — the BCB `sgs.get({nome: codigo}, ...)` call, which labels the
  single returned series with the requested dictionary key.
* `baixar_dados` — the normalizer: registry lookup, dispatch by `fonte`,
  and the surrounding try/except.  User-facing `st.error` / `st.warning`
  calls are modelled as an emitted message list.
* `ttl_fetch_yfinance_data`, `ttl_baixar_dados` — the two
  `@st.cache_data(ttl=...)` constants.
* `getOrFetch` — the cache layer (see its doc comment).
* `to_csv`, `tabela_display` — the CSV export (`dados.to_csv()`) and the
  table tab's display transform (format the index to DD/MM/YYYY strings,
  then `sort_index(ascending=False)` on the resulting string index).
-/

namespace Dashboard

/-- Severity of a user-facing message (`st.error` vs `st.warning`). -/
inductive Level where
  | error
  | warning
deriving DecidableEq, Repr

/-- A user-facing message emitted by the data layer. -/
structure Msg where
  level : Level
  text : String
deriving DecidableEq, Repr

/-- A calendar date (pandas timestamp at midnight). -/
structure Date where
  year : Nat
  month : Nat
  day : Nat
deriving DecidableEq, Repr

/-- Chronological key of a date: lexicographic on (year, month, day). -/
def Date.key (d : Date) : Nat :=
  d.year * 10000 + d.month * 100 + d.day

/-- Zero-pad a numeral to two digits. -/
def pad2 (n : Nat) : String :=
  if n < 10 then "0" ++ toString n else toString n

/-- Zero-pad a numeral to four digits. -/
def pad4 (n : Nat) : String :=
  if n < 10 then "000" ++ toString n
  else if n < 100 then "00" ++ toString n
  else if n < 1000 then "0" ++ toString n
  else toString n

/-- ISO rendering `YYYY-MM-DD`, the pandas default used by `to_csv`. -/
def Date.isoString (d : Date) : String :=
  pad4 d.year ++ "-" ++ pad2 d.month ++ "-" ++ pad2 d.day

/-- Day-first rendering `DD/MM/YYYY`, the `strftime` format of the table tab. -/
def Date.brString (d : Date) : String :=
  pad2 d.day ++ "/" ++ pad2 d.month ++ "/" ++ pad4 d.year

/-- Dates strictly increasing along a list. -/
def strictlyIncreasing : List Date → Bool
  | [] => true
  | [_] => true
  | a :: b :: rest => decide (a.key < b.key) && strictlyIncreasing (b :: rest)

/-- A named column of a table; a `none` cell is a missing (NaN) value. -/
structure Column where
  name : String
  values : List (Option Int)
deriving DecidableEq, Repr

/-- A pandas-style table: a date index plus named value columns. -/
structure DataFrame where
  index : List Date
  cols : List Column
deriving DecidableEq, Repr

/-- `pd.DataFrame()`: the empty table. -/
def DataFrame.emptyDF : DataFrame := ⟨[], []⟩

/-- `df.empty`: true when either axis has length zero. -/
def DataFrame.isEmpty (df : DataFrame) : Bool :=
  df.index.isEmpty || df.cols.isEmpty

/-- `df.columns` as a list of labels. -/
def DataFrame.colNames (df : DataFrame) : List String :=
  df.cols.map Column.name

/-- Look up a column by label (`'Close' in data.columns` / `data[['Close']]`). -/
def DataFrame.findCol (df : DataFrame) (n : String) : Option Column :=
  df.cols.find? (fun c => c.name == n)

/-- Source code of an indicator: a Yahoo-Finance ticker or a BCB/SGS series id. -/
inductive Codigo where
  | yf (ticker : String)
  | bcb (serie : Nat)
deriving DecidableEq, Repr

/-- The value passed as `ticker` when the code is handed to the market adapter. -/
def Codigo.ticker : Codigo → String
  | .yf t => t
  | .bcb n => toString n

/-- Registry entry: `{'codigo': ..., 'fonte': ..., 'unidade': ...}`. -/
structure IndicadorInfo where
  codigo : Codigo
  fonte : String
  unidade : String
deriving DecidableEq, Repr

/-- The `indicadores` dictionary of the page. -/
def indicadores : List (String × IndicadorInfo) :=
  [("Ibovespa", ⟨Codigo.yf "^BVSP", "YF", "Pontos"⟩),
   ("PIB Total", ⟨Codigo.bcb 4380, "BCB", "R$ milhões"⟩),
   ("Taxa Selic", ⟨Codigo.bcb 4189, "BCB", "% ao ano"⟩),
   ("IPCA Mensal", ⟨Codigo.bcb 433, "BCB", "%"⟩),
   ("Câmbio USD/BRL", ⟨Codigo.bcb 3696, "BCB", "R$"⟩),
   ("Taxa de Desemprego", ⟨Codigo.bcb 24369, "BCB", "%"⟩)]

/-- The Yahoo-Finance adapter `fetch_yfinance_data`.  The `download` argument
is the outcome of the `yf.download` call (`Except.error` for a raised
exception).  Mirrors the source: on exception, `st.error` and return
`pd.DataFrame()`; on an empty table, `st.warning` and return `pd.DataFrame()`;
if a `Close` column exists, select it and relabel it with the ticker;
otherwise, if any column exists, select the first column and relabel it with
the ticker; otherwise return `pd.DataFrame()`. -/
def fetch_yfinance_data (ticker : String) (download : Except String DataFrame) :
    List Msg × DataFrame :=
  match download with
  | .error e =>
      ([⟨Level.error, "❌ Erro ao buscar " ++ ticker ++ ": " ++ e⟩], DataFrame.emptyDF)
  | .ok data =>
      if data.isEmpty then
        ([⟨Level.warning, "⚠️ Nenhum dado encontrado para " ++ ticker⟩], DataFrame.emptyDF)
      else
        match data.findCol "Close" with
        | some c => ([], ⟨data.index, [⟨ticker, c.values⟩]⟩)
        | none =>
            match data.cols with
            | c :: _ => ([], ⟨data.index, [⟨ticker, c.values⟩]⟩)
            | [] => ([], DataFrame.emptyDF)

/-- The BCB call `sgs.get({nome: codigo}, start, end)`: the provider returns a
single raw series (index and values) which the library labels with the
requested dictionary key `nome`.  `Except.error` models a raised exception. -/
def sgs_get (nome : String) (resp : Except String (List Date × List (Option Int))) :
    Except String DataFrame :=
  resp.map (fun raw => ⟨raw.1, [⟨nome, raw.2⟩]⟩)

/-- The normalizer `baixar_dados`.  Looks the name up in `indicadores`; if
absent, `st.error` and return `pd.DataFrame()`.  Otherwise dispatch by
`fonte`: `'YF'` delegates to `fetch_yfinance_data` with the registry code as
ticker; anything else calls `sgs.get` and returns its table unchanged, with
the surrounding try/except converting a raised exception into `st.error` plus
`pd.DataFrame()`.  The two provider outcomes are explicit arguments. -/
def baixar_dados (nome : String) (yfResp : Except String DataFrame)
    (bcbResp : Except String (List Date × List (Option Int))) :
    List Msg × DataFrame :=
  match indicadores.lookup nome with
  | none =>
      ([⟨Level.error, "Indicador " ++ nome ++ " não encontrado"⟩], DataFrame.emptyDF)
  | some info =>
      if info.fonte == "YF" then
        fetch_yfinance_data info.codigo.ticker yfResp
      else
        match sgs_get nome bcbResp with
        | .ok df => ([], df)
        | .error e =>
            ([⟨Level.error, "Erro ao processar " ++ nome ++ ": " ++ e⟩], DataFrame.emptyDF)

/-- TTL of `@st.cache_data` on `fetch_yfinance_data`, in seconds. -/
def ttl_fetch_yfinance_data : Nat := 3600

/-- TTL of `@st.cache_data` on `baixar_dados`, in seconds. -/
def ttl_baixar_dados : Nat := 1800

/-- A cache entry: key, stored value, insertion time (seconds). -/
structure CacheEntry (α : Type) where
  key : String
  value : α
  insertedAt : Nat

/-- Find the entry for a key. -/
def lookupEntry {α : Type} (s : List (CacheEntry α)) (k : String) : Option (CacheEntry α) :=
  s.find? (fun e => e.key == k)

/-- Modelled from the spec: the Cache Layer semantics of `@st.cache_data`
(the decorator is framework code, not part of this repository).  Per the
spec: on a hit within TTL, return the stored value with no call to the
producer; on a miss or expiry, invoke the producer once, store the result,
and return it.  The third component counts producer invocations (0 or 1). -/
def getOrFetch {α : Type} (k : String) (ttl now : Nat) (producer : Unit → α)
    (s : List (CacheEntry α)) : α × List (CacheEntry α) × Nat :=
  match lookupEntry s k with
  | some e =>
      if now - e.insertedAt ≤ ttl then (e.value, s, 0)
      else
        let v := producer ()
        (v, ⟨k, v, now⟩ :: s.filter (fun x => !(x.key == k)), 1)
  | none =>
      let v := producer ()
      (v, ⟨k, v, now⟩ :: s.filter (fun x => !(x.key == k)), 1)

/-- `baixar_dados` as deployed: behind `@st.cache_data(ttl=1800)`, keyed by
the indicator name. -/
def baixar_dados_cached (nome : String) (yfResp : Except String DataFrame)
    (bcbResp : Except String (List Date × List (Option Int))) (now : Nat)
    (s : List (CacheEntry (List Msg × DataFrame))) :
    (List Msg × DataFrame) × List (CacheEntry (List Msg × DataFrame)) × Nat :=
  getOrFetch nome ttl_baixar_dados now (fun _ => baixar_dados nome yfResp bcbResp) s

/-- Render a cell: a missing value prints as the empty field. -/
def valueCell : Option Int → String
  | none => ""
  | some v => toString v

/-- `dados.to_csv()` on the frames the page exports (one value column, index
named `Date`): header line, then one line per row with the index rendered in
the pandas default ISO format.  A frame without exactly one column never
reaches the download button; for it only the header is rendered. -/
def to_csv (df : DataFrame) : String :=
  match df.cols with
  | [c] =>
      "Date," ++ c.name ++ "\n" ++
        String.join (List.zipWith
          (fun d v => Date.isoString d ++ "," ++ valueCell v ++ "\n") df.index c.values)
  | _ => "Date" ++ String.join (df.colNames.map (fun n => "," ++ n)) ++ "\n"

/-- The exported artifact as the spec words it, for comparison: two columns
(date, value) with the date formatted DD/MM/YYYY. -/
def csv_artifact_spec (name : String) (rows : List (Date × Option Int)) : String :=
  "Date," ++ name ++ "\n" ++
    String.join (rows.map (fun r => Date.brString r.1 ++ "," ++ valueCell r.2 ++ "\n"))

/-- The exported artifact with the date column in ISO `YYYY-MM-DD` form:
two columns (date, value), built row by row. -/
def csv_artifact_iso (name : String) (rows : List (Date × Option Int)) : String :=
  "Date," ++ name ++ "\n" ++
    String.join (rows.map (fun r => Date.isoString r.1 ++ "," ++ valueCell r.2 ++ "\n"))

/-- Insertion step of a descending insertion sort with comparator `ge`. -/
def insertBy {β : Type} (ge : β → β → Bool) (x : β) : List β → List β
  | [] => [x]
  | y :: ys => if ge x y then x :: y :: ys else y :: insertBy ge x ys

/-- Descending insertion sort with comparator `ge`. -/
def sortBy {β : Type} (ge : β → β → Bool) : List β → List β
  | [] => []
  | x :: xs => insertBy ge x (sortBy ge xs)

/-- Lexicographic comparison of character lists by code point. -/
def charsLt : List Char → List Char → Bool
  | [], [] => false
  | [], _ :: _ => true
  | _ :: _, [] => false
  | a :: as, b :: bs =>
      if a.toNat < b.toNat then true
      else if b.toNat < a.toNat then false
      else charsLt as bs

/-- String comparison `a ≥ b` in the code-point lexicographic order used by
pandas when sorting a string index. -/
def strGE (a b : String) : Bool := !(charsLt a.toList b.toList)

/-- The table tab's transform: copy the frame, re-render the index as
DD/MM/YYYY strings, then `sort_index(ascending=False)` — a sort on the
string index.  Returned as the displayed (date string, value) rows of the
single value column. -/
def tabela_display (df : DataFrame) : List (String × Option Int) :=
  match df.cols with
  | c :: _ => sortBy (fun a b => strGE a.1 b.1) ((df.index.map Date.brString).zip c.values)
  | [] => []

/-- Reverse-chronological ordering of the same rows: sort by the date key
descending, then render the dates. -/
def reverseChronological (df : DataFrame) : List (String × Option Int) :=
  match df.cols with
  | c :: _ =>
      (sortBy (fun a b => decide (b.1.key ≤ a.1.key)) (df.index.zip c.values)).map
        (fun p => (p.1.brString, p.2))
  | [] => []

end Dashboard

namespace Dashboard

/-- Helper: on a non-empty provider table the adapter always returns a table
with exactly one column, labeled with the ticker it was called with. -/
theorem fetch_colNames (ticker : String) (yf : Except String DataFrame)
    (hne : (fetch_yfinance_data ticker yf).2.isEmpty = false) :
    (fetch_yfinance_data ticker yf).2.colNames = [ticker] := by
  cases yf with
  | error e =>
    simp only [fetch_yfinance_data] at hne
    exact absurd hne (by decide)
  | ok data =>
    by_cases hd : data.isEmpty = true
    · simp only [fetch_yfinance_data, hd, if_true] at hne
      exact absurd hne (by decide)
    · rw [Bool.not_eq_true] at hd
      rcases hc : data.findCol "Close" with _ | c
      · rcases hcl : data.cols with _ | ⟨c, rest⟩
        · simp only [fetch_yfinance_data, hd, Bool.false_eq_true, if_false, hc, hcl] at hne
          exact absurd hne (by decide)
        · simp only [fetch_yfinance_data, hd, Bool.false_eq_true, if_false, hc, hcl]
          rfl
      · simp only [fetch_yfinance_data, hd, Bool.false_eq_true, if_false, hc]
        rfl

/-- Helper: the adapter keeps the provider's index unchanged — no row is
dropped, reordered or deduplicated on the market path. -/
theorem fetch_index (ticker : String) (data : DataFrame) (hne : data.isEmpty = false) :
    (fetch_yfinance_data ticker (Except.ok data)).2.index = data.index := by
  have hcols : data.cols ≠ [] := by
    intro hnil
    simp [DataFrame.isEmpty, hnil] at hne
  rcases hc : data.findCol "Close" with _ | c
  · rcases hcl : data.cols with _ | ⟨c, rest⟩
    · exact absurd hcl hcols
    · simp only [fetch_yfinance_data, hne, Bool.false_eq_true, if_false, hc, hcl]
  · simp only [fetch_yfinance_data, hne, Bool.false_eq_true, if_false, hc]

/-- Helper: `zipWith` over two lists is `map` over their `zip`. -/
theorem zipWith_eq_map_zip {α β γ : Type} (f : α → β → γ) :
    ∀ (as : List α) (bs : List β), List.zipWith f as bs = (as.zip bs).map (fun p => f p.1 p.2)
  | [], _ => rfl
  | _ :: _, [] => rfl
  | a :: as, b :: bs => by
      simp only [List.zipWith_cons_cons, List.zip_cons_cons, List.map_cons,
        zipWith_eq_map_zip f as bs]

/-- Claim C1, counterexample: `baixar_dados` does not normalize the adapter
output.  For the registered indicator `Taxa Selic` and a statistical-provider
response whose rows are out of order, carry a duplicate date and contain a
missing value, the returned table keeps those rows verbatim: its dates are
not strictly increasing, the duplicate date survives, and the missing value
is not dropped. -/
theorem claim1_counterexample :
    strictlyIncreasing (baixar_dados "Taxa Selic" (Except.error "e")
        (Except.ok ([⟨2024,1,2⟩, ⟨2024,1,1⟩, ⟨2024,1,1⟩], [some 3, none, some 2]))).2.index = false
  ∧ (baixar_dados "Taxa Selic" (Except.error "e")
        (Except.ok ([⟨2024,1,2⟩, ⟨2024,1,1⟩, ⟨2024,1,1⟩], [some 3, none, some 2]))).2.cols
      = [⟨"Taxa Selic", [some 3, none, some 2]⟩] := by decide

/-- Claim C1, amended: `baixar_dados` passes the adapter's rows through
unchanged — it selects exactly one value column on the market path and
returns the statistical provider's table verbatim, performing no dropping of
missing values, no sorting and no deduplication, so the returned dates are
exactly the adapter's dates in the adapter's order. -/
theorem claim1_passthrough (nome : String) (info : IndicadorInfo)
    (h : indicadores.lookup nome = some info)
    (data : DataFrame) (hne : data.isEmpty = false)
    (idx : List Date) (vals : List (Option Int))
    (yf : Except String DataFrame) (bcb : Except String (List Date × List (Option Int))) :
    (info.fonte = "YF" → (baixar_dados nome (Except.ok data) bcb).2.index = data.index)
  ∧ (info.fonte ≠ "YF" → (baixar_dados nome yf (Except.ok (idx, vals))).2 = ⟨idx, [⟨nome, vals⟩]⟩) := by
  constructor
  · intro hf
    have hfb : (info.fonte == "YF") = true := by rw [hf]; rfl
    simp only [baixar_dados, h, hfb, if_true]
    exact fetch_index _ _ hne
  · intro hf
    have hfb : (info.fonte == "YF") = false := by
      rw [Bool.eq_false_iff]
      intro hb
      exact hf (by simpa using hb)
    simp only [baixar_dados, h, hfb, Bool.false_eq_true, if_false, sgs_get, Except.map]

/-- Claim C1, witness: the statistical path at a concrete response. -/
theorem claim1_passthrough_witness :
    (baixar_dados "Taxa Selic" (Except.error "e")
        (Except.ok ([⟨2024,1,2⟩], [some 3]))).2 =
      ⟨[⟨2024,1,2⟩], [⟨"Taxa Selic", [some 3]⟩]⟩ :=
  (claim1_passthrough "Taxa Selic" ⟨Codigo.bcb 4189, "BCB", "% ao ano"⟩ (by decide)
      ⟨[⟨2024,1,2⟩], [⟨"x", [some 1]⟩]⟩ (by decide) [⟨2024,1,2⟩] [some 3]
      (Except.error "e") (Except.ok ([⟨2024,1,2⟩], [some 3]))).2 (by decide)

/-- Claim C2: on a non-empty provider table, `fetch_yfinance_data` selects
the adjusted-close column (`Close`, the call passes `auto_adjust=True`) when
one exists, and otherwise falls back to the first available column instead of
failing; in both cases the selected column is relabeled with the ticker and
no error outcome is produced. -/
theorem claim2_column_fallback (ticker : String) (data : DataFrame)
    (hne : data.isEmpty = false) :
    (∀ c, data.findCol "Close" = some c →
        fetch_yfinance_data ticker (Except.ok data) = ([], ⟨data.index, [⟨ticker, c.values⟩]⟩))
  ∧ (data.findCol "Close" = none → ∀ c rest, data.cols = c :: rest →
        fetch_yfinance_data ticker (Except.ok data) = ([], ⟨data.index, [⟨ticker, c.values⟩]⟩)) := by
  constructor
  · intro c hc
    simp only [fetch_yfinance_data, hne, Bool.false_eq_true, if_false, hc]
  · intro hn c rest hcols
    simp only [fetch_yfinance_data, hne, Bool.false_eq_true, if_false, hn, hcols]

/-- Claim C2, witness: a response containing only a `Volume` column yields
that column (relabeled with the ticker) rather than an error. -/
theorem claim2_witness :
    fetch_yfinance_data "^BVSP" (Except.ok ⟨[⟨2024,1,2⟩], [⟨"Volume", [some 7]⟩]⟩)
      = ([], ⟨[⟨2024,1,2⟩], [⟨"^BVSP", [some 7]⟩]⟩) :=
  (claim2_column_fallback "^BVSP" ⟨[⟨2024,1,2⟩], [⟨"Volume", [some 7]⟩]⟩ (by decide)).2
    (by decide) ⟨"Volume", [some 7]⟩ [] rfl

/-- Claim C3: for a name absent from the registry, `baixar_dados` returns an
empty table together with an error-level user message and does not raise,
and that outcome differs from the non-error empty outcome produced for a
registered indicator whose provider simply returned no rows (which carries
no error message). -/
theorem claim3_unknown_indicator (nome : String)
    (h : indicadores.lookup nome = none)
    (yf : Except String DataFrame) (bcb : Except String (List Date × List (Option Int))) :
    baixar_dados nome yf bcb =
      ([⟨Level.error, "Indicador " ++ nome ++ " não encontrado"⟩], DataFrame.emptyDF)
  ∧ (baixar_dados nome yf bcb).1 ≠ (baixar_dados "Taxa Selic" yf (Except.ok ([], []))).1 := by
  have h2 : baixar_dados "Taxa Selic" yf (Except.ok ([], [])) =
      ([], ⟨[], [⟨"Taxa Selic", []⟩]⟩) := rfl
  refine ⟨by simp only [baixar_dados, h], ?_⟩
  rw [h2]
  simp only [baixar_dados, h]
  exact List.cons_ne_nil _ _

/-- Claim C3, witness: the name `nonexistent` at concrete provider outcomes. -/
theorem claim3_witness :
    baixar_dados "nonexistent" (Except.error "e") (Except.error "e") =
      ([⟨Level.error, "Indicador " ++ "nonexistent" ++ " não encontrado"⟩], DataFrame.emptyDF)
  ∧ (baixar_dados "nonexistent" (Except.error "e") (Except.error "e")).1 ≠
      (baixar_dados "Taxa Selic" (Except.error "e") (Except.ok ([], []))).1 :=
  claim3_unknown_indicator "nonexistent" (by decide) (Except.error "e") (Except.error "e")

/-- Claim C4: adapter-level failures are absorbed.  When a provider call
raises (modelled as an `Except.error` outcome), the adapter returns the
explicit empty table, and `baixar_dados` returns the explicit empty table for
every indicator name when both providers fail — no exception propagates
above the normalizer boundary (the functions are total and always produce a
message-list/table pair). -/
theorem claim4_failures_absorbed (nome ticker e : String) :
    (fetch_yfinance_data ticker (Except.error e)).2 = DataFrame.emptyDF
  ∧ (baixar_dados nome (Except.error e) (Except.error e)).2 = DataFrame.emptyDF := by
  refine ⟨rfl, ?_⟩
  cases h : indicadores.lookup nome with
  | none => simp only [baixar_dados, h]
  | some info =>
    by_cases hf : (info.fonte == "YF") = true
    · simp only [baixar_dados, h, hf, if_true, fetch_yfinance_data]
    · rw [Bool.not_eq_true] at hf
      simp only [baixar_dados, h, hf, Bool.false_eq_true, if_false, sgs_get, Except.map]

/-- Claim C5, counterexample: the market path does not label the single
output column with the indicator name.  For `Ibovespa` with a non-empty
provider table, the non-empty output's single column is labeled with the
ticker `^BVSP`, not with `Ibovespa`. -/
theorem claim5_counterexample :
    (baixar_dados "Ibovespa"
        (Except.ok ⟨[⟨2024,1,2⟩], [⟨"Close", [some 100]⟩]⟩) (Except.error "e")).2.isEmpty = false
  ∧ (baixar_dados "Ibovespa"
        (Except.ok ⟨[⟨2024,1,2⟩], [⟨"Close", [some 100]⟩]⟩) (Except.error "e")).2.colNames
      = ["^BVSP"]
  ∧ (baixar_dados "Ibovespa"
        (Except.ok ⟨[⟨2024,1,2⟩], [⟨"Close", [some 100]⟩]⟩) (Except.error "e")).2.colNames
      ≠ ["Ibovespa"] := by decide

/-- Claim C5, amended: for every registered indicator, a non-empty output of
`baixar_dados` has exactly one column; on the statistical path its label is
the indicator name, but on the market path its label is the ticker (the
registry's source code), not the indicator name. -/
theorem claim5_uniform_output (nome : String) (info : IndicadorInfo)
    (h : indicadores.lookup nome = some info)
    (yf : Except String DataFrame) (bcb : Except String (List Date × List (Option Int)))
    (hne : (baixar_dados nome yf bcb).2.isEmpty = false) :
    (baixar_dados nome yf bcb).2.colNames =
      [if info.fonte == "YF" then info.codigo.ticker else nome] := by
  by_cases hf : (info.fonte == "YF") = true
  · have hrw : baixar_dados nome yf bcb = fetch_yfinance_data info.codigo.ticker yf := by
      simp only [baixar_dados, h, hf, if_true]
    rw [hrw] at hne ⊢
    rw [if_pos hf]
    exact fetch_colNames _ _ hne
  · rw [Bool.not_eq_true] at hf
    cases bcb with
    | error e =>
      have hrw : baixar_dados nome yf (Except.error e) =
          ([⟨Level.error, "Erro ao processar " ++ nome ++ ": " ++ e⟩], DataFrame.emptyDF) := by
        simp only [baixar_dados, h, hf, Bool.false_eq_true, if_false, sgs_get, Except.map]
      rw [hrw] at hne
      simp [DataFrame.emptyDF, DataFrame.isEmpty] at hne
    | ok raw =>
      have hrw : baixar_dados nome yf (Except.ok raw) = ([], ⟨raw.1, [⟨nome, raw.2⟩]⟩) := by
        simp only [baixar_dados, h, hf, Bool.false_eq_true, if_false, sgs_get, Except.map]
      rw [hrw]
      rw [if_neg (by simp [hf])]
      rfl

/-- Claim C5, witness: `Ibovespa` on the market path at a concrete table. -/
theorem claim5_witness :
    (baixar_dados "Ibovespa"
        (Except.ok ⟨[⟨2024,1,2⟩], [⟨"Volume", [some 7]⟩]⟩) (Except.error "e")).2.colNames =
      [if ("YF" == "YF") then Codigo.ticker (Codigo.yf "^BVSP") else "Ibovespa"] :=
  claim5_uniform_output "Ibovespa" ⟨Codigo.yf "^BVSP", "YF", "Pontos"⟩ (by decide)
    (Except.ok ⟨[⟨2024,1,2⟩], [⟨"Volume", [some 7]⟩]⟩) (Except.error "e") (by decide)

/-- Claim C6, counterexample: the TTL on the market adapter's raw fetch
(3600 s) is not strictly shorter than the TTL on the normalized result
(1800 s). -/
theorem claim6_counterexample : ¬ (ttl_fetch_yfinance_data < ttl_baixar_dados) := by decide

/-- Claim C6, amended: the two cache layers use two independent TTL
constants, with the market adapter's raw-fetch TTL strictly longer than the
TTL of the fully normalized per-indicator result. -/
theorem claim6_ttl_order : ttl_baixar_dados < ttl_fetch_yfinance_data := by decide

/-- Claim C7: idempotence under caching.  Starting from a cache without the
key, two consecutive cached calls with the same arguments within the TTL
return identical results, invoke the underlying `baixar_dados` exactly once
across the two calls, and the returned value is the `baixar_dados` output. -/
theorem claim7_idempotent (nome : String) (yf : Except String DataFrame)
    (bcb : Except String (List Date × List (Option Int))) (t1 t2 : Nat)
    (s0 : List (CacheEntry (List Msg × DataFrame)))
    (h0 : lookupEntry s0 nome = none) (h12 : t2 - t1 ≤ ttl_baixar_dados) :
    ((baixar_dados_cached nome yf bcb t2 (baixar_dados_cached nome yf bcb t1 s0).2.1).1
        = (baixar_dados_cached nome yf bcb t1 s0).1)
  ∧ (baixar_dados_cached nome yf bcb t1 s0).2.2
      + (baixar_dados_cached nome yf bcb t2 (baixar_dados_cached nome yf bcb t1 s0).2.1).2.2 = 1
  ∧ (baixar_dados_cached nome yf bcb t1 s0).1 = baixar_dados nome yf bcb := by
  have h1 : baixar_dados_cached nome yf bcb t1 s0 =
      (baixar_dados nome yf bcb,
        ⟨nome, baixar_dados nome yf bcb, t1⟩ :: s0.filter (fun x => !(x.key == nome)), 1) := by
    simp only [baixar_dados_cached, getOrFetch, h0]
  have hl : lookupEntry
      (⟨nome, baixar_dados nome yf bcb, t1⟩ :: s0.filter (fun x => !(x.key == nome))) nome
      = some ⟨nome, baixar_dados nome yf bcb, t1⟩ := by
    simp [lookupEntry, List.find?]
  have h2 : baixar_dados_cached nome yf bcb t2
      (⟨nome, baixar_dados nome yf bcb, t1⟩ :: s0.filter (fun x => !(x.key == nome))) =
      (baixar_dados nome yf bcb,
        ⟨nome, baixar_dados nome yf bcb, t1⟩ :: s0.filter (fun x => !(x.key == nome)), 0) := by
    simp only [baixar_dados_cached, getOrFetch, hl, h12, if_pos]
  rw [h1]
  simp only []
  rw [h2]
  exact ⟨rfl, rfl, trivial⟩

/-- Claim C7, witness: two calls for `Taxa Selic` at times 0 and 100 within
the 1800-second TTL, starting from an empty cache. -/
theorem claim7_witness :
    ((baixar_dados_cached "Taxa Selic" (Except.error "e") (Except.ok ([], [])) 100
        (baixar_dados_cached "Taxa Selic" (Except.error "e") (Except.ok ([], [])) 0 []).2.1).1
      = (baixar_dados_cached "Taxa Selic" (Except.error "e") (Except.ok ([], [])) 0 []).1)
  ∧ (baixar_dados_cached "Taxa Selic" (Except.error "e") (Except.ok ([], [])) 0 []).2.2
      + (baixar_dados_cached "Taxa Selic" (Except.error "e") (Except.ok ([], [])) 100
          (baixar_dados_cached "Taxa Selic" (Except.error "e") (Except.ok ([], [])) 0 []).2.1).2.2 = 1
  ∧ (baixar_dados_cached "Taxa Selic" (Except.error "e") (Except.ok ([], [])) 0 []).1
      = baixar_dados "Taxa Selic" (Except.error "e") (Except.ok ([], [])) :=
  claim7_idempotent "Taxa Selic" (Except.error "e") (Except.ok ([], [])) 0 100 [] rfl (by decide)

/-- Claim C8, counterexample: the exported artifact renders dates in the
pandas default ISO form, not DD/MM/YYYY.  For `Taxa Selic` with a concrete
one-row series, `to_csv` produces `1994-07-01`, which differs from the
DD/MM/YYYY rendering the claim requires. -/
theorem claim8_counterexample :
    to_csv (baixar_dados "Taxa Selic" (Except.error "e")
        (Except.ok ([⟨1994,7,1⟩], [some 25]))).2
      = "Date,Taxa Selic\n1994-07-01,25\n"
  ∧ to_csv (baixar_dados "Taxa Selic" (Except.error "e")
        (Except.ok ([⟨1994,7,1⟩], [some 25]))).2
      ≠ csv_artifact_spec "Taxa Selic" [(⟨1994,7,1⟩, some 25)] := by decide

/-- Claim C8, amended: for every single-column time series, the exported
artifact has two columns (date, value) for the selected indicator, with the
date column formatted `YYYY-MM-DD` (the pandas default), not `DD/MM/YYYY`. -/
theorem claim8_iso_export (idx : List Date) (c : Column) :
    to_csv ⟨idx, [c]⟩ = csv_artifact_iso c.name (idx.zip c.values) := by
  simp only [to_csv, csv_artifact_iso]
  rw [zipWith_eq_map_zip]

/-- Claim C10: the table view formats the index to DD/MM/YYYY strings before
sorting descending, so the displayed order is lexicographic on day-first
strings.  For a concrete series spanning two months (January and February
2024), the displayed row order differs from descending date order. -/
theorem claim10_lexicographic_display :
    ((⟨2024,1,15⟩ : Date).month ≠ (⟨2024,2,1⟩ : Date).month)
  ∧ tabela_display ⟨[⟨2024,1,15⟩, ⟨2024,2,1⟩], [⟨"^BVSP", [some 1, some 2]⟩]⟩
      = [("15/01/2024", some 1), ("01/02/2024", some 2)]
  ∧ reverseChronological ⟨[⟨2024,1,15⟩, ⟨2024,2,1⟩], [⟨"^BVSP", [some 1, some 2]⟩]⟩
      = [("01/02/2024", some 2), ("15/01/2024", some 1)]
  ∧ tabela_display ⟨[⟨2024,1,15⟩, ⟨2024,2,1⟩], [⟨"^BVSP", [some 1, some 2]⟩]⟩
      ≠ reverseChronological ⟨[⟨2024,1,15⟩, ⟨2024,2,1⟩], [⟨"^BVSP", [some 1, some 2]⟩]⟩ := by
  decide

end Dashboard
